import Mathlib

/-!
Shallow embedding of `src/analysis/mafft.py` (class `MafftCline`, a thin
wrapper that feeds biological sequences to the external `mafft` alignment
tool and parses its output back).

The class derives from `clineapp.ClineApp`; that base class, the helper
modules `scratchfile` and `utils`, and the Biopython I/O routines
(`SeqIO.write`, `AlignIO.read`) are not part of this repository's sources.
Where their behaviour decides a claim they are modelled from the spec and
each such definition carries a doc comment saying so.  Everything else is
translated directly from `mafft.py`.

Python exceptions are modelled as an explicit error component; mutation of
the runner object is modelled by explicit state passing; the scratch
working directory is modelled as an association list from filename to file
contents, a file's contents being its list of lines (each line a list of
characters, so that the FASTA framing of Biopython can be stated exactly).
-/

set_option autoImplicit false

namespace Mafft

/-- A line of a text file, as a list of characters (no newline inside). -/
abbrev FLine := List Char

/-- Contents of the scratch working directory: filename to file lines.
Writing conses; reading takes the first (most recent) entry. -/
abbrev FS := List (String × List FLine)

/-- Read a file from the working directory (first match wins). -/
def fsRead : FS → String → Option (List FLine)
  | [], _ => none
  | (n, v) :: rest, name => if n = name then some v else fsRead rest name

/-- Write (create or overwrite) a file in the working directory. -/
def fsWrite (fs : FS) (name : String) (content : List FLine) : FS :=
  (name, content) :: fs

/-- `INSEQ_FILENAME = 'inseq.fasta'` from mafft.py. -/
def INSEQ_FILENAME : String := "inseq.fasta"

/-- `OUTALIGN_FILENAME = 'outalign.fasta'` from mafft.py. -/
def OUTALIGN_FILENAME : String := "outalign.fasta"

/-- A Biopython `SeqRecord`: an identifier plus a residue string. -/
structure SeqRecord where
  id : String
  seq : String
deriving Repr, DecidableEq

/-- An element of the caller-supplied iterable `bioseqs`.  Python lets the
caller pass any object; `setup_workdir` checks each element with
`isinstance (s, SeqRecord.SeqRecord)`. -/
inductive BioObj where
  | seqRec (r : SeqRecord)
  | other (tag : String)
deriving Repr, DecidableEq

/-- `isinstance (s, SeqRecord.SeqRecord)` on an input element. -/
def isSeqRecord : BioObj → Bool
  | .seqRec _ => true
  | .other _ => false

/-- The failures the wrapper can raise.  Python raises `AssertionError`
everywhere; the spec names the three assert sites `PreconditionError`
(fewer than two sequences in `run`), `StateError` (no command line built
before `extract_results`) and `NotFoundError` (output file missing).
`typeAssertError` is the per-element isinstance assert of `setup_workdir`
and `nameError` is a Python `NameError` (unresolved global name). -/
inductive MafftError where
  | preconditionError
  | stateError
  | notFoundError (path : String)
  | typeAssertError
  | nameError
deriving Repr, DecidableEq

/-- The mutable state of one `MafftCline` runner object.  `trace` records
every external command line actually handed to the shell, so that claims
about the external process being (or not being) invoked are statable. -/
structure MafftCline where
  exepath : String
  use_workdir : Bool
  remove_workdir : Bool
  check_requirements : Bool
  inseqs : List BioObj
  curr_cline : Option String
  fs : FS
  trace : List String
deriving Repr, DecidableEq

/-- Modelled from the spec: `clineapp.ClineApp.__init__` is not under
src/; per the spec platform configuration it stores the executable path
and the working-directory policy flags on the instance, with no command
line built yet. -/
def clineApp_init (exepath : String) (use_workdir remove_workdir check_requirements : Bool) :
    MafftCline :=
  { exepath := exepath
    use_workdir := use_workdir
    remove_workdir := remove_workdir
    check_requirements := check_requirements
    inseqs := []
    curr_cline := none
    fs := []
    trace := [] }

/-- `MafftCline.__init__` from mafft.py: delegates to the base constructor
with `use_workdir=True, remove_workdir=False, check_requirements=False`. -/
def mafftInit (exepath : String) : MafftCline :=
  clineApp_init exepath true false false

/-- Python truthiness of `self._curr_cline` in `assert (self._curr_cline)`:
`None` and the empty string are falsy. -/
def pyTruthy : Option String → Bool
  | none => false
  | some s => !s.isEmpty

/-- Join command tokens with single spaces. -/
def joinArgs : List String → String
  | [] => ""
  | [a] => a
  | a :: rest => a ++ " " ++ joinArgs rest

/-- Modelled from the spec: `clineapp.ClineApp._build_cmdline` is not under
src/; the spec says the base command line is the tool path followed by the
caller-supplied argument tokens, in order. -/
def clineApp_build_cmdline (c : MafftCline) (clargs : List String) : String :=
  joinArgs (c.exepath :: clargs)

/-- `MafftCline._build_cmdline` from mafft.py: appends the input filename
to the caller arguments, delegates to the base builder, then appends the
shell redirection to the output filename. -/
def mafft_build_cmdline (c : MafftCline) (clargs : List String) : String :=
  clineApp_build_cmdline c (clargs ++ [INSEQ_FILENAME]) ++ " > " ++ OUTALIGN_FILENAME

/-- Modelled from the spec: Biopython `SeqIO.write (recs, hndl, 'fasta')`
is an external library; per the spec glossary a FASTA file has, per
sequence, a header line (marked by the leading character) followed by the
residue data, sequences written in the order supplied. -/
def fastaWrite : List SeqRecord → List FLine
  | [] => []
  | r :: rest => ('>' :: r.id.data) :: r.seq.data :: fastaWrite rest

/-- Recognise a FASTA header line: a line whose first character is the
header marker, yielding the identifier characters after it. -/
def headerOf : FLine → Option (List Char)
  | '>' :: idc => some idc
  | _ => none

/-- Helper of `fastaParse`: currently inside the record with identifier
characters `idc`, residue characters `acc` accumulated so far. -/
def fastaParseFrom (idc : List Char) (acc : List Char) : List FLine → List SeqRecord
  | [] => [⟨⟨idc⟩, ⟨acc⟩⟩]
  | line :: rest =>
    match headerOf line with
    | some idc2 => ⟨⟨idc⟩, ⟨acc⟩⟩ :: fastaParseFrom idc2 [] rest
    | none => fastaParseFrom idc (acc ++ line) rest

/-- Modelled from the spec: Biopython `AlignIO.read (hndl, 'fasta')` is an
external library; it parses the FASTA text back into the ordered list of
(identifier, aligned residue string) pairs.  Lines before the first header
carry no record. -/
def fastaParse : List FLine → List SeqRecord
  | [] => []
  | line :: rest =>
    match headerOf line with
    | some idc => fastaParseFrom idc [] rest
    | none => fastaParse rest

/-- A record that FASTA serialisation round-trips: its identifier and its
residue string contain no newline (each must fit on one line of the text
file) and the residue string does not begin with the header marker. -/
def fastaSafe (r : SeqRecord) : Bool :=
  !r.id.data.contains '\n' && !r.seq.data.contains '\n' &&
    (headerOf r.seq.data).isNone

/-- The collection loop of `MafftCline.setup_workdir`: each element of
`self._inseqs` is asserted to be a `SeqRecord` and appended, in order; the
first non-`SeqRecord` element raises, aborting before anything is written. -/
def collectSeqRecords : List BioObj → Except MafftError (List SeqRecord)
  | [] => .ok []
  | .seqRec r :: rest => (collectSeqRecords rest).map (r :: ·)
  | .other _ :: _ => .error .typeAssertError

/-- `MafftCline.setup_workdir` from mafft.py: the base class creates the
scratch working directory (modelled from the spec: a fresh, empty
directory per run), `scratchfile.make_scratch_file` creates the empty
input file (modelled from the spec: the fixed-name input file placed in
the working directory), then every element of `self._inseqs` is checked
with `assert (isinstance (s, SeqRecord.SeqRecord))` while being collected,
and only after the whole loop is the collection written to the input file
in FASTA format.  The returned pair is the state after the call and the
exception it raised, if any. -/
def setup_workdir (c : MafftCline) : MafftCline × Option MafftError :=
  let c1 : MafftCline := { c with fs := fsWrite [] INSEQ_FILENAME [] }
  match collectSeqRecords c.inseqs with
  | .error e => (c1, some e)
  | .ok recs =>
      ({ c1 with fs := fsWrite c1.fs INSEQ_FILENAME (fastaWrite recs) }, none)

/-- Modelled from the spec: after the run completes, the working
directory is deleted or retained according to the `remove_workdir`
configuration flag (retention is a configuration choice, not automatic
cleanup). -/
def cleanup_workdir (c : MafftCline) : MafftCline :=
  if c.remove_workdir then { c with fs := [] } else c

/-- Modelled from the spec: `clineapp.ClineApp.call_cmdline` is not under
src/; per the spec the run creates the scratch working directory and input
file (through the overridden `setup_workdir`), builds the command line
(through the overridden `_build_cmdline`), records it, and invokes the
external program synchronously.  The external tool and its shell
redirection are the environment, passed in as `tool`, a function from the
executed command line and the files present to the files present after. -/
def call_cmdline (tool : String → FS → FS) (c : MafftCline) (clargs : List String) :
    MafftCline × Option MafftError :=
  match setup_workdir c with
  | (c1, some e) => (c1, some e)
  | (c1, none) =>
      let cl := mafft_build_cmdline c1 clargs
      let c2 : MafftCline :=
        { c1 with
          curr_cline := some cl
          trace := c1.trace ++ [cl]
          fs := tool cl c1.fs }
      (cleanup_workdir c2, none)

/-- `MafftCline.run` from mafft.py: asserts `2 <= len (bioseqs)`, stores
the sequences on the instance, and calls `call_cmdline` with the caller
arguments.  On the failed assert the exception propagates before the
instance is touched or any process started. -/
def run (tool : String → FS → FS) (c : MafftCline) (bioseqs : List BioObj)
    (clargs : List String) : MafftCline × Option MafftError :=
  if 2 ≤ bioseqs.length then
    call_cmdline tool { c with inseqs := bioseqs } clargs
  else
    (c, some .preconditionError)

/-- `MafftCline.run_fftns` from mafft.py: `self.run (bioseqs, '--retree 2',
'--maxiterate 0')`. -/
def run_fftns (tool : String → FS → FS) (c : MafftCline) (bioseqs : List BioObj) :
    MafftCline × Option MafftError :=
  run tool c bioseqs ["--retree 2", "--maxiterate 0"]

/-- `run_quick_and_dirty = run_fftns` from mafft.py (a class-level alias). -/
def run_quick_and_dirty : (String → FS → FS) → MafftCline → List BioObj →
    MafftCline × Option MafftError :=
  run_fftns

/-- The first textual definition of `MafftCline.extract_results` in
mafft.py (the one at the earlier source position): asserts that a command
line has been built (`assert (self._curr_cline)`), asserts that the output
file exists at its expected path, then parses it with `AlignIO.read` as
FASTA. -/
def extract_results_first (c : MafftCline) : Except MafftError (List SeqRecord) :=
  if pyTruthy c.curr_cline then
    match fsRead c.fs OUTALIGN_FILENAME with
    | some lines => .ok (fastaParse lines)
    | none => .error (.notFoundError OUTALIGN_FILENAME)
  else
    .error .stateError

/-- The second textual definition of `MafftCline.extract_results` in
mafft.py (the one at the later source position, which shadows the first
when the class body is executed): asserts that a command line has been
built, asserts that the output file exists, then parses it with
`AlignIO.read` as FASTA. -/
def extract_results_second (c : MafftCline) : Except MafftError (List SeqRecord) :=
  if pyTruthy c.curr_cline then
    match fsRead c.fs OUTALIGN_FILENAME with
    | some lines => .ok (fastaParse lines)
    | none => .error (.notFoundError OUTALIGN_FILENAME)
  else
    .error .stateError

/-- `MafftCline.extract_results` as the class actually exposes it: the
second definition, executed last in the class body, wins. -/
def extract_results : MafftCline → Except MafftError (List SeqRecord) :=
  extract_results_second

/-- The names bound at module level in mafft.py: the imports `os`,
`SeqRecord`, `SeqIO`, `AlignIO`, `clineapp`, `scratchfile`, the two
filename constants, the class and the test hook.  The line
`from relais.dev.common import *` is commented out, so nothing else is
bound. -/
def mafftModuleNames : List String :=
  ["os", "SeqRecord", "SeqIO", "AlignIO", "clineapp", "scratchfile",
   "INSEQ_FILENAME", "OUTALIGN_FILENAME", "MafftCline", "_doctest",
   "__docformat__"]

/-- `MafftCline.extract_diagnostics` from mafft.py: for each of the two
known filenames it evaluates `utils.file_to_string (fpath)` and stores the
result in the returned mapping.  Evaluating the global name `utils`
succeeds only if mafft.py binds it; otherwise Python raises `NameError`.
The success branch is modelled from the spec: the raw contents of each
known file, with entries for missing files simply absent. -/
def extract_diagnostics (c : MafftCline) :
    Except MafftError (List (String × List FLine)) :=
  if mafftModuleNames.contains "utils" then
    .ok (([INSEQ_FILENAME, OUTALIGN_FILENAME]).filterMap
      (fun n => (fsRead c.fs n).map (fun v => (n, v))))
  else
    .error .nameError

/-- The stub external tool of the spec round-trip property: copies the
input file verbatim to the output filename, ignoring the command line. -/
def stubCopyTool (_cl : String) (fs : FS) : FS :=
  match fsRead fs INSEQ_FILENAME with
  | some content => fsWrite fs OUTALIGN_FILENAME content
  | none => fs

/-! ### Helper lemmas -/

theorem headerOf_gt (idc : List Char) : headerOf ('>' :: idc) = some idc := rfl

theorem fastaSafe_headerOf (r : SeqRecord) (h : fastaSafe r = true) :
    headerOf r.seq.data = none := by
  simp [fastaSafe] at h
  exact h.2

theorem fastaParseFrom_fastaWrite (recs : List SeqRecord)
    (h : ∀ r ∈ recs, headerOf r.seq.data = none) :
    ∀ idc acc, fastaParseFrom idc acc (fastaWrite recs) = ⟨⟨idc⟩, ⟨acc⟩⟩ :: recs := by
  induction recs with
  | nil => intro idc acc; rfl
  | cons r rest ih =>
    intro idc acc
    have hr : headerOf r.seq.data = none := h r (List.mem_cons_self r rest)
    have hrest : ∀ x ∈ rest, headerOf x.seq.data = none :=
      fun x hx => h x (List.mem_cons_of_mem r hx)
    show fastaParseFrom idc acc (('>' :: r.id.data) :: r.seq.data :: fastaWrite rest) = _
    simp only [fastaParseFrom, headerOf_gt]
    simp only [fastaParseFrom, hr]
    simp only [List.nil_append]
    rw [ih hrest]

theorem fastaParse_fastaWrite (recs : List SeqRecord)
    (h : ∀ r ∈ recs, headerOf r.seq.data = none) :
    fastaParse (fastaWrite recs) = recs := by
  cases recs with
  | nil => rfl
  | cons r rest =>
    have hr : headerOf r.seq.data = none := h r (List.mem_cons_self r rest)
    have hrest : ∀ x ∈ rest, headerOf x.seq.data = none :=
      fun x hx => h x (List.mem_cons_of_mem r hx)
    show fastaParse (('>' :: r.id.data) :: r.seq.data :: fastaWrite rest) = r :: rest
    simp only [fastaParse, headerOf_gt]
    simp only [fastaParseFrom, hr]
    simp only [List.nil_append]
    rw [fastaParseFrom_fastaWrite rest hrest]

theorem collectSeqRecords_map (recs : List SeqRecord) :
    collectSeqRecords (recs.map BioObj.seqRec) = .ok recs := by
  induction recs with
  | nil => rfl
  | cons r rest ih => simp [collectSeqRecords, ih, Except.map]

theorem collectSeqRecords_ok_of_all (l : List BioObj)
    (h : ∀ x ∈ l, isSeqRecord x = true) :
    ∃ recs, collectSeqRecords l = .ok recs := by
  induction l with
  | nil => exact ⟨[], rfl⟩
  | cons x rest ih =>
    cases x with
    | seqRec r =>
      obtain ⟨recs, hrecs⟩ := ih (fun y hy => h y (List.mem_cons_of_mem _ hy))
      exact ⟨r :: recs, by simp [collectSeqRecords, hrecs, Except.map]⟩
    | other t => simpa [isSeqRecord] using h (BioObj.other t) (List.mem_cons_self _ _)

theorem collectSeqRecords_error_of_bad (l : List BioObj)
    (h : ∃ x ∈ l, isSeqRecord x = false) :
    collectSeqRecords l = .error .typeAssertError := by
  induction l with
  | nil => simp at h
  | cons x rest ih =>
    cases x with
    | other t => rfl
    | seqRec r =>
      have hrest : ∃ y ∈ rest, isSeqRecord y = false := by
        obtain ⟨y, hy, hb⟩ := h
        cases List.mem_cons.mp hy with
        | inl he => rw [he] at hb; simp [isSeqRecord] at hb
        | inr hm => exact ⟨y, hm, hb⟩
      simp [collectSeqRecords, ih hrest, Except.map]

theorem joinArgs_append_last (y : String) (xs : List String) :
    ∀ x, joinArgs (x :: (xs ++ [y])) = joinArgs (x :: xs) ++ " " ++ y := by
  induction xs with
  | nil => intro x; rfl
  | cons a as ih =>
    intro x
    calc joinArgs (x :: a :: (as ++ [y]))
        = x ++ " " ++ joinArgs (a :: (as ++ [y])) := rfl
      _ = x ++ " " ++ (joinArgs (a :: as) ++ " " ++ y) := by rw [ih a]
      _ = (x ++ " " ++ joinArgs (a :: as)) ++ " " ++ y := by
            apply String.ext
            simp [String.data_append]
      _ = joinArgs (x :: a :: as) ++ " " ++ y := rfl

theorem mafft_build_cmdline_eq (c : MafftCline) (clargs : List String) :
    mafft_build_cmdline c clargs =
      joinArgs (c.exepath :: clargs) ++ " " ++ INSEQ_FILENAME ++ " > " ++
        OUTALIGN_FILENAME := by
  show joinArgs (c.exepath :: (clargs ++ [INSEQ_FILENAME])) ++ " > " ++
      OUTALIGN_FILENAME = _
  rw [joinArgs_append_last INSEQ_FILENAME clargs c.exepath]

theorem pyTruthy_mafft_cmdline (c : MafftCline) (clargs : List String) :
    pyTruthy (some (mafft_build_cmdline c clargs)) = true := by
  have hne : mafft_build_cmdline c clargs ≠ "" := by
    rw [mafft_build_cmdline_eq]
    intro hc
    have hd := congrArg String.data hc
    simp [String.data_append, OUTALIGN_FILENAME] at hd
  simp [pyTruthy, Bool.eq_false_iff, String.isEmpty_iff, hne]

theorem fsRead_fsWrite_same (fs : FS) (n : String) (v : List FLine) :
    fsRead (fsWrite fs n v) n = some v := by
  simp [fsRead, fsWrite]

theorem fsRead_fsWrite_other (fs : FS) (n m : String) (v : List FLine) (h : n ≠ m) :
    fsRead (fsWrite fs n v) m = fsRead fs m := by
  simp [fsRead, fsWrite, h]

/-- The complete state after a successful `run` on a fresh runner: the
input file holds the FASTA serialisation of the records, the command line
is recorded, and the files are whatever the external tool left behind. -/
theorem run_mafftInit_ok (tool : String → FS → FS) (e : String) (recs : List SeqRecord)
    (clargs : List String) (h2 : 2 ≤ recs.length) :
    run tool (mafftInit e) (recs.map BioObj.seqRec) clargs =
      ({ exepath := e, use_workdir := true, remove_workdir := false,
         check_requirements := false, inseqs := recs.map BioObj.seqRec,
         curr_cline := some (mafft_build_cmdline (mafftInit e) clargs),
         fs := tool (mafft_build_cmdline (mafftInit e) clargs)
                 (fsWrite (fsWrite [] INSEQ_FILENAME []) INSEQ_FILENAME
                   (fastaWrite recs)),
         trace := [mafft_build_cmdline (mafftInit e) clargs] }, none) := by
  have hlen : 2 ≤ (recs.map BioObj.seqRec).length := by simpa using h2
  unfold run
  rw [if_pos hlen]
  unfold call_cmdline setup_workdir
  simp only [mafftInit, clineApp_init]
  rw [collectSeqRecords_map]
  simp [cleanup_workdir, mafft_build_cmdline, clineApp_build_cmdline]

/-! ### Claim theorems -/

/-- C1: for every valid sequence collection (length at least 2, every
record FASTA-serialisable), with the stub external tool that copies the
input file verbatim to the output filename, `run` succeeds, the input
file `inseq.fasta` is written containing the sequences in the order
supplied, and `extract_results` after `run` parses the output file back
into exactly the input records, identifiers and order preserved
(round-trip property). -/
theorem C1_roundtrip_after_run (e : String) (clargs : List String)
    (recs : List SeqRecord) (h2 : 2 ≤ recs.length)
    (hsafe : ∀ r ∈ recs, fastaSafe r = true) :
    (run stubCopyTool (mafftInit e) (recs.map BioObj.seqRec) clargs).2 = none ∧
    fsRead (run stubCopyTool (mafftInit e) (recs.map BioObj.seqRec) clargs).1.fs
      INSEQ_FILENAME = some (fastaWrite recs) ∧
    extract_results (run stubCopyTool (mafftInit e) (recs.map BioObj.seqRec) clargs).1 =
      .ok recs := by
  have hho : ∀ r ∈ recs, headerOf r.seq.data = none :=
    fun r hr => fastaSafe_headerOf r (hsafe r hr)
  rw [run_mafftInit_ok stubCopyTool e recs clargs h2]
  refine ⟨rfl, ?_, ?_⟩
  · dsimp only
    simp only [stubCopyTool, fsRead_fsWrite_same]
    rw [fsRead_fsWrite_other _ _ _ _ (by decide)]
    exact fsRead_fsWrite_same _ _ _
  · show extract_results_second _ = _
    simp only [extract_results_second, pyTruthy_mafft_cmdline, if_true]
    simp only [stubCopyTool, fsRead_fsWrite_same]
    exact congrArg Except.ok (fastaParse_fastaWrite recs hho)

/-- Witness for C1 at the two-record collection of the spec scenario. -/
theorem C1_witness :
    (run stubCopyTool (mafftInit "/usr/bin/mafft")
        ([⟨"A", "ACGT"⟩, ⟨"B", "AC-T"⟩].map BioObj.seqRec) []).2 = none ∧
    fsRead (run stubCopyTool (mafftInit "/usr/bin/mafft")
        ([⟨"A", "ACGT"⟩, ⟨"B", "AC-T"⟩].map BioObj.seqRec) []).1.fs INSEQ_FILENAME =
      some (fastaWrite [⟨"A", "ACGT"⟩, ⟨"B", "AC-T"⟩]) ∧
    extract_results (run stubCopyTool (mafftInit "/usr/bin/mafft")
        ([⟨"A", "ACGT"⟩, ⟨"B", "AC-T"⟩].map BioObj.seqRec) []).1 =
      .ok [⟨"A", "ACGT"⟩, ⟨"B", "AC-T"⟩] :=
  C1_roundtrip_after_run "/usr/bin/mafft" [] [⟨"A", "ACGT"⟩, ⟨"B", "AC-T"⟩]
    (by decide) (by decide)

/-- C2: `run` on fewer than two sequences fails immediately with the
precondition failure, leaving the runner untouched (in particular no
command is added to the execution trace, so the external process is not
invoked); on two or more sequences the precondition check passes and
`run` proceeds to `call_cmdline`. -/
theorem C2_run_precondition (tool : String → FS → FS) (c : MafftCline)
    (bioseqs : List BioObj) (clargs : List String) :
    (bioseqs.length < 2 →
      run tool c bioseqs clargs = (c, some MafftError.preconditionError)) ∧
    (2 ≤ bioseqs.length →
      run tool c bioseqs clargs =
        call_cmdline tool { c with inseqs := bioseqs } clargs) := by
  constructor
  · intro h
    have hn : ¬ 2 ≤ bioseqs.length := by omega
    unfold run
    rw [if_neg hn]
  · intro h
    unfold run
    rw [if_pos h]

/-- Witness for C2 at a one-element collection. -/
theorem C2_witness :
    run (fun _ fs => fs) (mafftInit "/usr/bin/mafft")
        [BioObj.seqRec ⟨"A", "ACGT"⟩] [] =
      (mafftInit "/usr/bin/mafft", some MafftError.preconditionError) :=
  (C2_run_precondition (fun _ fs => fs) (mafftInit "/usr/bin/mafft")
    [BioObj.seqRec ⟨"A", "ACGT"⟩] []).1 (by decide)

/-- C3: the constructed command line is exactly the tool path, then the
caller-supplied argument tokens in the order supplied, then the input
filename, then the shell redirection to the output filename; in
particular it always ends with `inseq.fasta > outalign.fasta`. -/
theorem C3_cmdline_shape (c : MafftCline) (clargs : List String) :
    mafft_build_cmdline c clargs =
      joinArgs (c.exepath :: clargs) ++ " " ++ INSEQ_FILENAME ++ " > " ++
        OUTALIGN_FILENAME ∧
    ∃ p, mafft_build_cmdline c clargs =
      p ++ (INSEQ_FILENAME ++ " > " ++ OUTALIGN_FILENAME) := by
  refine ⟨mafft_build_cmdline_eq c clargs,
    ⟨joinArgs (c.exepath :: clargs) ++ " ", ?_⟩⟩
  rw [mafft_build_cmdline_eq]
  apply String.ext
  simp [String.data_append]

/-- C4: calling `extract_results` before any run (no command line ever
built, as on a freshly constructed runner) fails with the state failure. -/
theorem C4_extract_before_run (c : MafftCline) (h : c.curr_cline = none) :
    extract_results c = .error MafftError.stateError := by
  simp [extract_results, extract_results_second, h, pyTruthy]

/-- Witness for C4 on a freshly constructed runner. -/
theorem C4_witness :
    extract_results (mafftInit "/usr/bin/mafft") = .error MafftError.stateError :=
  C4_extract_before_run (mafftInit "/usr/bin/mafft") rfl

/-- C5: when a command line has been built but the expected output file
`outalign.fasta` is absent, `extract_results` fails with the not-found
failure naming that path, producing no alignment; in particular this is
what happens after a `run` whose external tool wrote no output at all. -/
theorem C5_output_missing (c : MafftCline) (e : String) (clargs : List String)
    (recs : List SeqRecord) (h1 : pyTruthy c.curr_cline = true)
    (h2 : fsRead c.fs OUTALIGN_FILENAME = none) (h3 : 2 ≤ recs.length) :
    extract_results c = .error (MafftError.notFoundError OUTALIGN_FILENAME) ∧
    extract_results
        (run (fun _ fs => fs) (mafftInit e) (recs.map BioObj.seqRec) clargs).1 =
      .error (MafftError.notFoundError OUTALIGN_FILENAME) := by
  constructor
  · simp [extract_results, extract_results_second, h1, h2]
  · rw [run_mafftInit_ok (fun _ fs => fs) e recs clargs h3]
    show extract_results_second _ = _
    simp only [extract_results_second, pyTruthy_mafft_cmdline, if_true]
    rw [fsRead_fsWrite_other _ _ _ _ (by decide),
      fsRead_fsWrite_other _ _ _ _ (by decide)]
    rfl

/-- Witness for C5: a runner with a recorded command line but no output
file, and a run whose external tool produced nothing. -/
theorem C5_witness :
    extract_results
        { exepath := "/usr/bin/mafft", use_workdir := true, remove_workdir := false,
          check_requirements := false, inseqs := [],
          curr_cline := some "mafft inseq.fasta",
          fs := [], trace := ["mafft inseq.fasta"] } =
      .error (MafftError.notFoundError OUTALIGN_FILENAME) ∧
    extract_results
        (run (fun _ fs => fs) (mafftInit "/usr/bin/mafft")
          ([⟨"A", "ACGT"⟩, ⟨"B", "AC-T"⟩].map BioObj.seqRec) []).1 =
      .error (MafftError.notFoundError OUTALIGN_FILENAME) :=
  C5_output_missing _ "/usr/bin/mafft" [] [⟨"A", "ACGT"⟩, ⟨"B", "AC-T"⟩]
    (by decide) rfl (by decide)

/-- C6: `extract_diagnostics` never returns its mapping: the body
evaluates the global name `utils`, which mafft.py does not bind (the line
that once supplied it is commented out), so every call raises `NameError`
instead of returning the documented mapping of filenames to contents. -/
theorem C6_diagnostics_raises (c : MafftCline) :
    extract_diagnostics c = .error MafftError.nameError := rfl

/-- C7: `run_fftns` (and its alias `run_quick_and_dirty`) is exactly
`run` with the fixed two-flag preset `--retree 2`, `--maxiterate 0`, so
the precondition check and every other behaviour coincide; and on a
valid run the recorded command line carries the two preset flags between
the tool path and the input filename. -/
theorem C7_quick_mode (tool : String → FS → FS) (c : MafftCline)
    (bioseqs : List BioObj) :
    run_fftns tool c bioseqs = run tool c bioseqs ["--retree 2", "--maxiterate 0"] ∧
    run_quick_and_dirty tool c bioseqs = run_fftns tool c bioseqs ∧
    (∀ e recs, 2 ≤ List.length recs →
      ((run_fftns tool (mafftInit e) (recs.map BioObj.seqRec)).1).curr_cline =
        some (joinArgs [e, "--retree 2", "--maxiterate 0"] ++ " " ++
          INSEQ_FILENAME ++ " > " ++ OUTALIGN_FILENAME)) := by
  refine ⟨rfl, rfl, ?_⟩
  intro e recs h2
  show (run tool (mafftInit e) (recs.map BioObj.seqRec)
      ["--retree 2", "--maxiterate 0"]).1.curr_cline = _
  rw [run_mafftInit_ok tool e recs ["--retree 2", "--maxiterate 0"] h2]
  dsimp only
  rw [mafft_build_cmdline_eq]
  rfl

/-- Witness for C7 at a two-record collection. -/
theorem C7_witness :
    ((run_fftns stubCopyTool (mafftInit "/usr/bin/mafft")
        ([⟨"A", "ACGT"⟩, ⟨"B", "AC-T"⟩].map BioObj.seqRec)).1).curr_cline =
      some (joinArgs ["/usr/bin/mafft", "--retree 2", "--maxiterate 0"] ++ " " ++
        INSEQ_FILENAME ++ " > " ++ OUTALIGN_FILENAME) :=
  (C7_quick_mode stubCopyTool (mafftInit "/usr/bin/mafft") []).2.2
    "/usr/bin/mafft" [⟨"A", "ACGT"⟩, ⟨"B", "AC-T"⟩] (by decide)

/-- C8: the default constructor configures the runner with
`remove_workdir = False`, so after a run completes the working directory
and its files are exactly what the external tool left (retained, not
deleted); and retention is driven by the configurable `remove_workdir`
flag of the base constructor, not hardcoded: the cleanup step keeps the
directory exactly when the flag is false and deletes it exactly when the
flag is true. -/
theorem C8_workdir_retention (e : String) (u r k : Bool) (c : MafftCline) :
    (mafftInit e).remove_workdir = false ∧
    (clineApp_init e u r k).remove_workdir = r ∧
    (c.remove_workdir = false → cleanup_workdir c = c) ∧
    (c.remove_workdir = true → (cleanup_workdir c).fs = []) ∧
    (∀ tool recs clargs, 2 ≤ List.length recs →
      (run tool (mafftInit e) (recs.map BioObj.seqRec) clargs).1.fs =
        tool (mafft_build_cmdline (mafftInit e) clargs)
          (fsWrite (fsWrite [] INSEQ_FILENAME []) INSEQ_FILENAME
            (fastaWrite recs))) := by
  refine ⟨rfl, rfl, ?_, ?_, ?_⟩
  · intro h
    simp [cleanup_workdir, h]
  · intro h
    simp [cleanup_workdir, h]
  · intro tool recs clargs h2
    rw [run_mafftInit_ok tool e recs clargs h2]

/-- Witness for C8: the default-configured runner keeps its working
directory through the cleanup step. -/
theorem C8_witness :
    cleanup_workdir (mafftInit "/usr/bin/mafft") = mafftInit "/usr/bin/mafft" :=
  (C8_workdir_retention "/usr/bin/mafft" true false false
    (mafftInit "/usr/bin/mafft")).2.2.1 rfl

/-- C9: the two textual definitions of `extract_results` in the class
body denote the same function on every runner state, and the operation
the class exposes is that shared function, so the duplication is
behaviour-preserving. -/
theorem C9_duplicate_extract (c : MafftCline) :
    extract_results_first c = extract_results_second c ∧
    extract_results = extract_results_second :=
  ⟨rfl, rfl⟩

/-- C10: if any input element is not a `SeqRecord`, `setup_workdir`
raises the per-element type assertion and the input file is left empty
(no sequence of a partial collection was written); if every element is a
`SeqRecord` the per-element check always passes. -/
theorem C10_setup_type_check (c : MafftCline) :
    ((∃ x ∈ c.inseqs, isSeqRecord x = false) →
      (setup_workdir c).2 = some MafftError.typeAssertError ∧
      fsRead (setup_workdir c).1.fs INSEQ_FILENAME = some []) ∧
    ((∀ x ∈ c.inseqs, isSeqRecord x = true) → (setup_workdir c).2 = none) := by
  constructor
  · intro h
    unfold setup_workdir
    rw [collectSeqRecords_error_of_bad c.inseqs h]
    exact ⟨rfl, fsRead_fsWrite_same _ _ _⟩
  · intro h
    obtain ⟨recs, hrecs⟩ := collectSeqRecords_ok_of_all c.inseqs h
    unfold setup_workdir
    rw [hrecs]

/-- Witness for C10 at a collection whose second element is not a
`SeqRecord`. -/
theorem C10_witness :
    (setup_workdir { mafftInit "/usr/bin/mafft" with
        inseqs := [BioObj.seqRec ⟨"A", "ACGT"⟩, BioObj.other "a plain string"] }).2 =
      some MafftError.typeAssertError ∧
    fsRead (setup_workdir { mafftInit "/usr/bin/mafft" with
        inseqs := [BioObj.seqRec ⟨"A", "ACGT"⟩, BioObj.other "a plain string"] }).1.fs
      INSEQ_FILENAME = some [] :=
  (C10_setup_type_check _).1 (by decide)

end Mafft
